import Mathlib

/-!
Verification of the moon-phase webhook bot (`moon_phase.py`).

The Python source is shallowly embedded below:
* `MoonPhase`, `determine_phase` embed `MoonPhase` and
  `AstronomicalCalculator._determine_phase` (days-since-new-moon modelled
  as an exact rational instead of a float; none of the verified properties
  depend on binary rounding).
* `format_ra` / `format_dec` embed `AstronomicalCalculator._format_ra` and
  `_format_dec`; Python `int()` truncation toward zero is `pytrunc` and the
  `{:02d}` format is `pad2`.
* `MoonData` (restricted to the fields consumed by the verified function),
  `truthy` (Python truthiness of an `Optional[str]`) and
  `get_visibility_status` embed `ContentGenerator.get_visibility_status`;
  the float fields `altitude`/`azimuth` are carried as the decimal strings
  the f-string would interpolate, since no verified property depends on
  Python float rendering.
* `AttemptResult`, `attempt_success`, `post_retry_loop`, `post_message`
  embed the retry loop of `DiscordWebhookManager.post_message`, with the
  outcome of each would-be HTTP attempt supplied as an oracle list; the
  model also returns the number of create attempts made and the list of
  sleep durations executed between attempts.
* `run` embeds the orchestration of `MoonPhaseBot.run` together with
  `Configuration.get_message_id` / `save_message_id`: the persisted
  message-id file is modelled as an `Option String` threaded through.
-/

namespace MoonBot

/-- Embeds the `MoonPhase` enum of the source. -/
inductive MoonPhase where
  | NEW_MOON
  | WAXING_CRESCENT
  | FIRST_QUARTER
  | WAXING_GIBBOUS
  | FULL_MOON
  | WANING_GIBBOUS
  | LAST_QUARTER
  | WANING_CRESCENT
deriving DecidableEq, Repr

/-- The `.value` string of each `MoonPhase` enum member. -/
def MoonPhase.value : MoonPhase → String
  | .NEW_MOON => "New Moon"
  | .WAXING_CRESCENT => "Waxing Crescent"
  | .FIRST_QUARTER => "First Quarter"
  | .WAXING_GIBBOUS => "Waxing Gibbous"
  | .FULL_MOON => "Full Moon"
  | .WANING_GIBBOUS => "Waning Gibbous"
  | .LAST_QUARTER => "Last Quarter"
  | .WANING_CRESCENT => "Waning Crescent"

/-- The `phase_mapping` table of `_determine_phase`: upper bound in days,
phase, image asset file name. -/
def phase_mapping : List (ℚ × MoonPhase × String) :=
  [(1, .NEW_MOON, "Moon_Phase_5_Alt.png"),
   (6, .WAXING_CRESCENT, "Moon_Phase_6_Alt.png"),
   (9, .FIRST_QUARTER, "Moon_Phase_7_Alt.png"),
   (13, .WAXING_GIBBOUS, "Moon_Phase_8_Alt.png"),
   (16, .FULL_MOON, "Moon_Phase_1_Alt.png"),
   (20, .WANING_GIBBOUS, "Moon_Phase_2_Alt.png"),
   (23, .LAST_QUARTER, "Moon_Phase_3_Alt.png"),
   (30, .WANING_CRESCENT, "Moon_Phase_4_Alt.png")]

/-- The `for days, phase_enum, image in phase_mapping: if days_since_new < days`
loop of `_determine_phase`: first entry whose upper bound exceeds the input. -/
def determine_phase_loop : List (ℚ × MoonPhase × String) → ℚ →
    Option (String × MoonPhase × String)
  | [], _ => none
  | (days, phase_enum, image) :: rest, days_since_new =>
      if days_since_new < days then some (phase_enum.value, phase_enum, image)
      else determine_phase_loop rest days_since_new

/-- Embeds `AstronomicalCalculator._determine_phase`: the loop over
`phase_mapping`, with the final `return MoonPhase.WANING_CRESCENT.value, ...`
as fallback when no entry matches. -/
def determine_phase (days_since_new : ℚ) : String × MoonPhase × String :=
  (determine_phase_loop phase_mapping days_since_new).getD
    (MoonPhase.WANING_CRESCENT.value, MoonPhase.WANING_CRESCENT, "Moon_Phase_4_Alt.png")

/-- Modelled from the spec: the §4.1 classifier contract, which (unlike the
source) rejects out-of-range input with an `InvalidArgument`-style error
and otherwise follows the same boundary table. -/
def classify_spec (ageDays : ℚ) : Except String (String × MoonPhase × String) :=
  if ageDays < 0 ∨ 2953/100 ≤ ageDays then .error "InvalidArgument"
  else .ok (determine_phase ageDays)

/-- Python `int()` applied to a rational: truncation toward zero. -/
def pytrunc (q : ℚ) : ℤ :=
  if 0 ≤ q then ⌊q⌋ else ⌈q⌉

/-- Python `f"{n:02d}"`: decimal rendering zero-padded to width 2 (the sign
counts toward the width, as in Python). -/
def pad2 (n : ℤ) : String :=
  if 0 ≤ n ∧ n < 10 then "0" ++ toString n else toString n

/-- Embeds `AstronomicalCalculator._format_ra`. -/
def format_ra (ra_hours : ℚ) : String :=
  let hours := pytrunc ra_hours
  let minutes := pytrunc ((ra_hours - hours) * 60)
  let seconds := pytrunc (((ra_hours - hours) * 60 - minutes) * 60)
  pad2 hours ++ "h " ++ pad2 minutes ++ "m " ++ pad2 seconds ++ "s"

/-- Embeds `AstronomicalCalculator._format_dec`. -/
def format_dec (dec_deg : ℚ) : String :=
  let sign := if 0 ≤ dec_deg then "+" else "-"
  let a := |dec_deg|
  let degrees := pytrunc a
  let minutes := pytrunc ((a - degrees) * 60)
  let seconds := pytrunc (((a - degrees) * 60 - minutes) * 60)
  sign ++ pad2 degrees ++ "° " ++ pad2 minutes ++ "\x27 " ++ pad2 seconds ++ "\""

/-- The hours (resp. degrees) value read back from the components displayed
by `format_ra`: `HH + MM/60 + SS/3600`. -/
def ra_reconstruct (ra_hours : ℚ) : ℚ :=
  let hours := pytrunc ra_hours
  let minutes := pytrunc ((ra_hours - hours) * 60)
  let seconds := pytrunc (((ra_hours - hours) * 60 - minutes) * 60)
  (hours : ℚ) + (minutes : ℚ) / 60 + (seconds : ℚ) / 3600

/-- The degrees value read back from the string displayed by `format_dec`:
the displayed sign applied to `DD + MM/60 + SS/3600` of the absolute value. -/
def dec_reconstruct (dec_deg : ℚ) : ℚ :=
  let sign : ℚ := if 0 ≤ dec_deg then 1 else -1
  let a := |dec_deg|
  let degrees := pytrunc a
  let minutes := pytrunc ((a - degrees) * 60)
  let seconds := pytrunc (((a - degrees) * 60 - minutes) * 60)
  sign * ((degrees : ℚ) + (minutes : ℚ) / 60 + (seconds : ℚ) / 3600)

/-- Python truthiness of an `Optional[str]`: `None` and `""` are falsy. -/
def truthy : Option String → Bool
  | none => false
  | some s => !(s == "")

/-- The fields of the `MoonData` dataclass consumed by
`get_visibility_status` (the other fields of the dataclass play no role in
any verified function; `altitude`/`azimuth` carry the decimal strings the
f-string interpolates for the underlying floats). -/
structure MoonData where
  is_visible : Bool
  rise_time : Option String
  transit_time : Option String
  altitude : String
  azimuth : String

/-- Embeds `ContentGenerator.get_visibility_status`. -/
def get_visibility_status (moon_data : MoonData) : String :=
  if !moon_data.is_visible then
    if truthy moon_data.rise_time then
      "Below horizon • Rises at " ++ moon_data.rise_time.getD "" ++ " UTC"
    else
      "Below horizon"
  else
    let status := "Visible • Alt: " ++ moon_data.altitude ++ "° • Az: " ++
      moon_data.azimuth ++ "°"
    if truthy moon_data.transit_time then
      status ++ " • Culminates at " ++ moon_data.transit_time.getD "" ++ " UTC"
    else
      status

/-- Outcome of one would-be HTTP create attempt: either the
`requests.exceptions.RequestException` branch, or a response with its
status code and the optional `id` field of its parsed body
(`response.json().get('id')`). -/
inductive AttemptResult where
  | reqError
  | httpResp (status : ℕ) (idField : Option String)
deriving DecidableEq, Repr

/-- One iteration of the retry loop: `some idField` when
`response.status_code in [200, 204]` (the loop returns
`response.json().get('id')`), `none` when the attempt failed (non-2xx
status or request exception) and the loop continues. -/
def attempt_success : AttemptResult → Option (Option String)
  | .reqError => none
  | .httpResp status idField =>
      if status = 200 ∨ status = 204 then some idField else none

/-- The `for attempt in range(retry_attempts)` loop of `post_message` over
the listed attempt outcomes: returns the value the loop returns, the number
of create attempts made, and the sleep durations executed (the source
sleeps `retry_delay_seconds` after a failed attempt unless it was the last
one). -/
def post_retry_loop (retry_delay : ℕ) :
    List AttemptResult → Option String × ℕ × List ℕ
  | [] => (none, 0, [])
  | [outcome] =>
      match attempt_success outcome with
      | some idField => (idField, 1, [])
      | none => (none, 1, [])
  | outcome :: next :: rest =>
      match attempt_success outcome with
      | some idField => (idField, 1, [])
      | none =>
          let (result, attempts, sleeps) := post_retry_loop retry_delay (next :: rest)
          (result, attempts + 1, retry_delay :: sleeps)

/-- Embeds `DiscordWebhookManager.post_message`: if the image asset file
does not exist the function returns `None` before any attempt; otherwise
the retry loop runs for at most `retry_attempts` attempts drawn from the
oracle list. -/
def post_message (asset_exists : Bool) (retry_attempts retry_delay : ℕ)
    (outcomes : List AttemptResult) : Option String × ℕ × List ℕ :=
  if asset_exists then post_retry_loop retry_delay (outcomes.take retry_attempts)
  else (none, 0, [])

/-- Embeds `MoonPhaseBot.run` (with `Configuration.get_message_id` /
`save_message_id` modelled as the threaded `stored` value): returns the
run outcome, the stored message id after the run, whether the delete step
was attempted (`if old_message_id:`), and the number of create attempts
made. -/
def run (stored : Option String) (asset_exists : Bool)
    (retry_attempts retry_delay : ℕ) (outcomes : List AttemptResult) :
    Bool × Option String × Bool × ℕ :=
  let delete_attempted := truthy stored
  let (new_message_id, attempts, _sleeps) :=
    post_message asset_exists retry_attempts retry_delay outcomes
  if truthy new_message_id then
    (true, new_message_id, delete_attempted, attempts)
  else
    (false, stored, delete_attempted, attempts)

/-- The retry loop stops at the first successful attempt: after `pre`
failed attempts, a successful attempt returns its id field having made
`pre.length + 1` attempts and slept once (for the fixed delay) after each
failed attempt. -/
theorem post_retry_loop_first_success (retry_delay : ℕ) (pre : List AttemptResult)
    (o : AttemptResult) (rest : List AttemptResult) (idField : Option String)
    (hpre : ∀ a ∈ pre, attempt_success a = none)
    (ho : attempt_success o = some idField) :
    post_retry_loop retry_delay (pre ++ o :: rest) =
      (idField, pre.length + 1, List.replicate pre.length retry_delay) := by
  induction pre with
  | nil =>
    cases rest with
    | nil => simp [post_retry_loop, ho]
    | cons b bs => simp [post_retry_loop, ho]
  | cons a pre ih =>
    have ha : attempt_success a = none := hpre a (by simp)
    have ih' := ih (fun x hx => hpre x (by simp [hx]))
    cases h : pre ++ o :: rest with
    | nil => simp at h
    | cons b bs =>
      rw [h] at ih'
      rw [List.cons_append, h]
      simp [post_retry_loop, ha, ih', List.replicate_succ]

/-- The retry loop makes at most as many attempts as there are listed
outcomes. -/
theorem post_retry_loop_attempts_le (retry_delay : ℕ) (l : List AttemptResult) :
    (post_retry_loop retry_delay l).2.1 ≤ l.length := by
  induction l with
  | nil => simp [post_retry_loop]
  | cons a t ih =>
    cases t with
    | nil => cases h : attempt_success a <;> simp [post_retry_loop, h]
    | cons b bs =>
      cases h : attempt_success a with
      | some idField => simp [post_retry_loop, h]
      | none =>
        rcases hpl : post_retry_loop retry_delay (b :: bs) with ⟨r, k, ds⟩
        rw [hpl] at ih
        simp only [List.length_cons] at ih ⊢
        simp [post_retry_loop, h, hpl]
        omega

/-- Every sleep the retry loop executes has the configured fixed
duration. -/
theorem post_retry_loop_delays (retry_delay : ℕ) (l : List AttemptResult) :
    ∀ x ∈ (post_retry_loop retry_delay l).2.2, x = retry_delay := by
  induction l with
  | nil => simp [post_retry_loop]
  | cons a t ih =>
    cases t with
    | nil => cases h : attempt_success a <;> simp [post_retry_loop, h]
    | cons b bs =>
      cases h : attempt_success a with
      | some idField => simp [post_retry_loop, h]
      | none =>
        rcases hpl : post_retry_loop retry_delay (b :: bs) with ⟨r, k, ds⟩
        rw [hpl] at ih
        simp only at ih
        simp [post_retry_loop, h, hpl]
        exact ih

/-- C3: with configured retry limit `N`, `post_message` makes at most `N`
create attempts, every delay slept between consecutive attempts is the
fixed configured delay, and the loop stops at the first successful attempt,
returning the id it obtained after exactly (number of prior failures + 1)
attempts. -/
theorem C3_post_retries_until_success (retry_attempts retry_delay : ℕ)
    (outcomes : List AttemptResult) :
    (post_message true retry_attempts retry_delay outcomes).2.1 ≤ retry_attempts ∧
    (∀ x ∈ (post_message true retry_attempts retry_delay outcomes).2.2,
      x = retry_delay) ∧
    (∀ pre o rest idField,
      outcomes.take retry_attempts = pre ++ o :: rest →
      (∀ a ∈ pre, attempt_success a = none) →
      attempt_success o = some idField →
      post_message true retry_attempts retry_delay outcomes =
        (idField, pre.length + 1, List.replicate pre.length retry_delay)) := by
  refine ⟨?_, ?_, ?_⟩
  · calc (post_message true retry_attempts retry_delay outcomes).2.1
        ≤ (outcomes.take retry_attempts).length := by
          simp only [post_message, if_pos]
          exact post_retry_loop_attempts_le retry_delay _
      _ ≤ retry_attempts := by simp [List.length_take]
  · simp only [post_message, if_pos]
    exact post_retry_loop_delays retry_delay _
  · intro pre o rest idField htake hpre ho
    simp only [post_message, if_pos, htake]
    exact post_retry_loop_first_success retry_delay pre o rest idField hpre ho

/-- C3 witness: with retry limit 3, two failing attempts followed by a
successful one yield the obtained id after exactly 3 attempts, with the
fixed delay slept twice. -/
theorem C3_post_retries_until_success_witness :
    post_message true 3 5
        [.reqError, .reqError, .httpResp 200 (some "1234567890")] =
      (some "1234567890", 3, [5, 5]) :=
  (C3_post_retries_until_success 3 5
      [.reqError, .reqError, .httpResp 200 (some "1234567890")]).2.2
    [.reqError, .reqError] (.httpResp 200 (some "1234567890")) []
    (some "1234567890") rfl (by decide) rfl

/-- C4: when the stored message reference is absent the delete step is
skipped; the post step always executes (the run makes exactly the attempts
the post step makes); and whenever the post step returns a (non-empty) new
message id, the run succeeds and the stored reference afterwards is exactly
that id — overwriting whatever was stored before. -/
theorem C4_first_run_skips_delete_and_persists (stored : Option String)
    (asset_exists : Bool) (retry_attempts retry_delay : ℕ)
    (outcomes : List AttemptResult) :
    ((run none asset_exists retry_attempts retry_delay outcomes).2.2.1 = false) ∧
    ((run stored asset_exists retry_attempts retry_delay outcomes).2.2.2 =
      (post_message asset_exists retry_attempts retry_delay outcomes).2.1) ∧
    (∀ mid, mid ≠ "" →
      (post_message asset_exists retry_attempts retry_delay outcomes).1 = some mid →
      (run stored asset_exists retry_attempts retry_delay outcomes).1 = true ∧
      (run stored asset_exists retry_attempts retry_delay outcomes).2.1 = some mid) := by
  rcases hp : post_message asset_exists retry_attempts retry_delay outcomes
    with ⟨nid, att, ds⟩
  refine ⟨?_, ?_, ?_⟩
  · simp only [run, hp]
    split_ifs <;> simp [truthy]
  · simp only [run, hp]
    split_ifs <;> simp
  · intro mid hmid hnid
    simp only [hp] at hnid
    simp only [run, hp, hnid, truthy]
    simp [hmid]

/-- C4 witness: first run (no stored reference), one successful attempt
returning id `"42"`: delete skipped, run succeeds, reference now `"42"`. -/
theorem C4_first_run_skips_delete_and_persists_witness :
    ((run none true 3 5 [.httpResp 200 (some "42")]).2.2.1 = false) ∧
    ((run none true 3 5 [.httpResp 200 (some "42")]).1 = true ∧
      (run none true 3 5 [.httpResp 200 (some "42")]).2.1 = some "42") :=
  ⟨(C4_first_run_skips_delete_and_persists none true 3 5
      [.httpResp 200 (some "42")]).1,
   (C4_first_run_skips_delete_and_persists none true 3 5
      [.httpResp 200 (some "42")]).2.2 "42" (by decide) (by decide)⟩

/-- C8: when the image asset file is missing, `post_message` fails with no
create attempt at all (zero attempts, no sleeps), and the run fails with
the stored reference unchanged. -/
theorem C8_missing_asset_fails_without_attempt (stored : Option String)
    (retry_attempts retry_delay : ℕ) (outcomes : List AttemptResult) :
    post_message false retry_attempts retry_delay outcomes = (none, 0, []) ∧
    (run stored false retry_attempts retry_delay outcomes).1 = false ∧
    (run stored false retry_attempts retry_delay outcomes).2.2.2 = 0 ∧
    (run stored false retry_attempts retry_delay outcomes).2.1 = stored := by
  simp [post_message, run, truthy]

/-- C10: whenever the post step yields no message identifier, the stored
message reference after the run equals the stored reference before it, and
the run reports failure. -/
theorem C10_failure_leaves_reference_unchanged (stored : Option String)
    (asset_exists : Bool) (retry_attempts retry_delay : ℕ)
    (outcomes : List AttemptResult)
    (h : (post_message asset_exists retry_attempts retry_delay outcomes).1 = none) :
    (run stored asset_exists retry_attempts retry_delay outcomes).2.1 = stored ∧
    (run stored asset_exists retry_attempts retry_delay outcomes).1 = false := by
  rcases hp : post_message asset_exists retry_attempts retry_delay outcomes
    with ⟨nid, att, ds⟩
  rw [hp] at h
  simp only at h
  simp [run, hp, h, truthy]

/-- C10 witness: stored reference `"old"`, a single failing attempt: the
reference is still `"old"` and the run fails. -/
theorem C10_failure_leaves_reference_unchanged_witness :
    (run (some "old") true 1 5 [.reqError]).2.1 = some "old" ∧
    (run (some "old") true 1 5 [.reqError]).1 = false :=
  C10_failure_leaves_reference_unchanged (some "old") true 1 5 [.reqError]
    (by decide)

/-- Scaling by 60 brackets the floor: `60⌊y⌋ ≤ ⌊60y⌋ < 60⌊y⌋ + 60`. -/
theorem floor_mul60_bounds (y : ℚ) :
    60 * ⌊y⌋ ≤ ⌊60 * y⌋ ∧ ⌊60 * y⌋ < 60 * ⌊y⌋ + 60 := by
  constructor
  · refine Int.le_floor.2 ?_
    push_cast
    linarith [Int.floor_le y]
  · refine Int.floor_lt.2 ?_
    push_cast
    linarith [Int.lt_floor_add_one y]

/-- The minute-level remainder of the floor: `⌊60x⌋ % 60 = ⌊60x⌋ - 60⌊x⌋`. -/
theorem fmod1 (x : ℚ) : ⌊60 * x⌋ % 60 = ⌊60 * x⌋ - 60 * ⌊x⌋ := by
  obtain ⟨h1, h2⟩ := floor_mul60_bounds x
  omega

/-- The second-level remainder of the floor:
`⌊3600x⌋ % 60 = ⌊3600x⌋ - 60⌊60x⌋`. -/
theorem fmod2 (x : ℚ) : ⌊3600 * x⌋ % 60 = ⌊3600 * x⌋ - 60 * ⌊60 * x⌋ := by
  have h := floor_mul60_bounds (60 * x)
  have h36 : (60 : ℚ) * (60 * x) = 3600 * x := by ring
  rw [h36] at h
  omega

/-- Floor of the fractional part scaled by 60. -/
theorem floor_scale60 (y : ℚ) : ⌊(y - (⌊y⌋ : ℚ)) * 60⌋ = ⌊60 * y⌋ - 60 * ⌊y⌋ := by
  have h : (y - (⌊y⌋ : ℚ)) * 60 = 60 * y - ((60 * ⌊y⌋ : ℤ) : ℚ) := by push_cast; ring
  rw [h, Int.floor_sub_int]

/-- For a non-negative input the three truncated sexagesimal components
computed by the source (`int()` of the value, of the minute remainder, and
of the second remainder) are `⌊x⌋`, `⌊60x⌋ % 60` and `⌊3600x⌋ % 60`. -/
theorem trunc_components (x : ℚ) (hx : 0 ≤ x) :
    pytrunc x = ⌊x⌋ ∧
    pytrunc ((x - (⌊x⌋ : ℚ)) * 60) = ⌊60 * x⌋ % 60 ∧
    pytrunc (((x - (⌊x⌋ : ℚ)) * 60 - ((⌊60 * x⌋ % 60 : ℤ) : ℚ)) * 60) =
      ⌊3600 * x⌋ % 60 := by
  have h1 : pytrunc x = ⌊x⌋ := by simp [pytrunc, hx]
  have hr1 : 0 ≤ (x - (⌊x⌋ : ℚ)) * 60 :=
    mul_nonneg (sub_nonneg.2 (Int.floor_le x)) (by norm_num)
  have h2 : pytrunc ((x - (⌊x⌋ : ℚ)) * 60) = ⌊60 * x⌋ % 60 := by
    rw [pytrunc, if_pos hr1, floor_scale60, fmod1]
  refine ⟨h1, h2, ?_⟩
  have harg : ((x - (⌊x⌋ : ℚ)) * 60 - ((⌊60 * x⌋ % 60 : ℤ) : ℚ)) * 60 =
      3600 * x - ((3600 * ⌊x⌋ + 60 * (⌊60 * x⌋ % 60) : ℤ) : ℚ) := by
    push_cast
    ring
  have hr2 : 0 ≤ ((x - (⌊x⌋ : ℚ)) * 60 - ((⌊60 * x⌋ % 60 : ℤ) : ℚ)) * 60 := by
    have hfl : ((⌊60 * x⌋ % 60 : ℤ) : ℚ) ≤ (x - (⌊x⌋ : ℚ)) * 60 := by
      rw [fmod1]
      have h60 : ((⌊60 * x⌋ : ℤ) : ℚ) ≤ 60 * x := Int.floor_le (60 * x)
      push_cast
      linarith
    linarith
  rw [pytrunc, if_pos hr2, harg, Int.floor_sub_int, fmod2, fmod1]
  ring

/-- The value displayed at one-second resolution brackets the input from
below within `1/3600`. -/
theorem floor3600_bounds (x : ℚ) :
    0 ≤ x - ((⌊3600 * x⌋ : ℤ) : ℚ) / 3600 ∧
      x - ((⌊3600 * x⌋ : ℤ) : ℚ) / 3600 ≤ 1 / 3600 := by
  have h1 := Int.floor_le (3600 * x)
  have h2 := Int.lt_floor_add_one (3600 * x)
  constructor <;> linarith

/-- The reconstructed right-ascension value is the input truncated to whole
seconds. -/
theorem ra_reconstruct_eq (x : ℚ) (hx : 0 ≤ x) :
    ra_reconstruct x = ((⌊3600 * x⌋ : ℤ) : ℚ) / 3600 := by
  obtain ⟨t1, t2, t3⟩ := trunc_components x hx
  simp only [ra_reconstruct]
  rw [t1, t2, t3, fmod1, fmod2]
  push_cast
  ring

/-- The reconstructed declination value is the displayed sign applied to
the absolute value truncated to whole seconds. -/
theorem dec_reconstruct_eq (r : ℚ) :
    dec_reconstruct r =
      (if 0 ≤ r then (1 : ℚ) else -1) * (((⌊3600 * |r|⌋ : ℤ) : ℚ) / 3600) := by
  obtain ⟨u1, u2, u3⟩ := trunc_components |r| (abs_nonneg r)
  simp only [dec_reconstruct]
  rw [u1, u2, u3, fmod1, fmod2]
  split_ifs with h
  · push_cast
    ring
  · push_cast
    ring

/-- C6: for a non-negative hours input `format_ra` produces
`HHh MMm SSs` where the three components are the input truncated (not
rounded) to hours, the minute remainder truncated to minutes
(`⌊60q⌋ % 60`), and the second remainder truncated to seconds
(`⌊3600q⌋ % 60`), both remainders lying in `[0, 60)`; for every degrees
input `format_dec` produces a signed `±DD° MM' SS"` string whose sign is an
explicit `+` exactly when the input is `≥ 0` (so also for input 0), with
the same truncation applied to the absolute value of the input. -/
theorem C6_formatters_truncate (q r : ℚ) (hq : 0 ≤ q) :
    (format_ra q =
        pad2 ⌊q⌋ ++ "h " ++ pad2 (⌊60 * q⌋ % 60) ++ "m " ++
          pad2 (⌊3600 * q⌋ % 60) ++ "s" ∧
      0 ≤ ⌊60 * q⌋ % 60 ∧ ⌊60 * q⌋ % 60 < 60 ∧
      0 ≤ ⌊3600 * q⌋ % 60 ∧ ⌊3600 * q⌋ % 60 < 60) ∧
    (format_dec r =
        (if 0 ≤ r then "+" else "-") ++ pad2 ⌊|r|⌋ ++ "° " ++
          pad2 (⌊60 * |r|⌋ % 60) ++ "\x27 " ++ pad2 (⌊3600 * |r|⌋ % 60) ++ "\"" ∧
      0 ≤ ⌊60 * |r|⌋ % 60 ∧ ⌊60 * |r|⌋ % 60 < 60 ∧
      0 ≤ ⌊3600 * |r|⌋ % 60 ∧ ⌊3600 * |r|⌋ % 60 < 60) := by
  obtain ⟨t1, t2, t3⟩ := trunc_components q hq
  obtain ⟨u1, u2, u3⟩ := trunc_components |r| (abs_nonneg r)
  constructor
  · refine ⟨?_, Int.emod_nonneg _ (by norm_num), Int.emod_lt_of_pos _ (by norm_num),
      Int.emod_nonneg _ (by norm_num), Int.emod_lt_of_pos _ (by norm_num)⟩
    simp only [format_ra]
    rw [t1, t2, t3]
  · refine ⟨?_, Int.emod_nonneg _ (by norm_num), Int.emod_lt_of_pos _ (by norm_num),
      Int.emod_nonneg _ (by norm_num), Int.emod_lt_of_pos _ (by norm_num)⟩
    simp only [format_dec]
    rw [u1, u2, u3]

/-- C6 witness: right ascension `2.5` hours and declination `-3` degrees. -/
theorem C6_formatters_truncate_witness :
    (format_ra (5/2) =
        pad2 ⌊(5/2 : ℚ)⌋ ++ "h " ++ pad2 (⌊60 * (5/2 : ℚ)⌋ % 60) ++ "m " ++
          pad2 (⌊3600 * (5/2 : ℚ)⌋ % 60) ++ "s" ∧
      0 ≤ ⌊60 * (5/2 : ℚ)⌋ % 60 ∧ ⌊60 * (5/2 : ℚ)⌋ % 60 < 60 ∧
      0 ≤ ⌊3600 * (5/2 : ℚ)⌋ % 60 ∧ ⌊3600 * (5/2 : ℚ)⌋ % 60 < 60) ∧
    (format_dec (-3) =
        (if 0 ≤ (-3 : ℚ) then "+" else "-") ++ pad2 ⌊|(-3 : ℚ)|⌋ ++ "° " ++
          pad2 (⌊60 * |(-3 : ℚ)|⌋ % 60) ++ "\x27 " ++
          pad2 (⌊3600 * |(-3 : ℚ)|⌋ % 60) ++ "\"" ∧
      0 ≤ ⌊60 * |(-3 : ℚ)|⌋ % 60 ∧ ⌊60 * |(-3 : ℚ)|⌋ % 60 < 60 ∧
      0 ≤ ⌊3600 * |(-3 : ℚ)|⌋ % 60 ∧ ⌊3600 * |(-3 : ℚ)|⌋ % 60 < 60) :=
  C6_formatters_truncate (5/2) (-3) (by norm_num)

/-- C7: the value reconstructed from the formatted components differs from
the input by at most one second of the respective unit (`1/3600`): for the
right ascension the truncation error lies in `[0, 1/3600]`, and for the
declination the absolute error is at most `1/3600`. -/
theorem C7_round_trip_bound (q r : ℚ) (hq : 0 ≤ q) :
    (0 ≤ q - ra_reconstruct q ∧ q - ra_reconstruct q ≤ 1 / 3600) ∧
    |r - dec_reconstruct r| ≤ 1 / 3600 := by
  obtain ⟨hra1, hra2⟩ := floor3600_bounds q
  rw [ra_reconstruct_eq q hq, dec_reconstruct_eq r]
  refine ⟨⟨hra1, hra2⟩, ?_⟩
  rcases le_or_lt 0 r with h | h
  · rw [if_pos h, abs_of_nonneg h]
    obtain ⟨h1, h2⟩ := floor3600_bounds r
    have e : r - 1 * (((⌊3600 * r⌋ : ℤ) : ℚ) / 3600) =
        r - ((⌊3600 * r⌋ : ℤ) : ℚ) / 3600 := by ring
    rw [e, abs_of_nonneg h1]
    exact h2
  · rw [if_neg (not_le.2 h), abs_of_neg h]
    obtain ⟨h1, h2⟩ := floor3600_bounds (-r)
    have e : r - (-1) * (((⌊3600 * (-r)⌋ : ℤ) : ℚ) / 3600) =
        -((-r) - ((⌊3600 * (-r)⌋ : ℤ) : ℚ) / 3600) := by ring
    rw [e, abs_neg, abs_of_nonneg h1]
    exact h2

/-- C7 witness: hours input `2.5` and degrees input `-3`. -/
theorem C7_round_trip_bound_witness :
    (0 ≤ (5/2 : ℚ) - ra_reconstruct (5/2) ∧
      (5/2 : ℚ) - ra_reconstruct (5/2) ≤ 1 / 3600) ∧
    |(-3 : ℚ) - dec_reconstruct (-3)| ≤ 1 / 3600 :=
  C7_round_trip_bound (5/2) (-3) (by norm_num)

/-- A string with a non-empty right operand of an append is non-empty. -/
theorem append_right_ne_empty (s t : String) (ht : t.length ≠ 0) : s ++ t ≠ "" := by
  intro h
  have hl := congrArg String.length h
  rw [String.length_append] at hl
  simp at hl
  omega

/-- C5: `get_visibility_status` is total — every combination of
visible/not-visible, rise known/unknown, transit known/unknown returns a
non-empty string — and follows exactly these branches: not visible with a
known rise time gives the below-horizon string naming the rise time; not
visible with unknown rise time gives the below-horizon string alone;
visible gives the altitude/azimuth string, with the culmination time
appended exactly when the transit time is known. -/
theorem C5_visibility_status_total (md : MoonData) :
    (get_visibility_status md ≠ "") ∧
    (md.is_visible = false → ∀ r, md.rise_time = some r → r ≠ "" →
      get_visibility_status md = "Below horizon • Rises at " ++ r ++ " UTC") ∧
    (md.is_visible = false → md.rise_time = none →
      get_visibility_status md = "Below horizon") ∧
    (md.is_visible = true → md.transit_time = none →
      get_visibility_status md =
        "Visible • Alt: " ++ md.altitude ++ "° • Az: " ++ md.azimuth ++ "°") ∧
    (md.is_visible = true → ∀ t, md.transit_time = some t → t ≠ "" →
      get_visibility_status md =
        "Visible • Alt: " ++ md.altitude ++ "° • Az: " ++ md.azimuth ++ "°" ++
          " • Culminates at " ++ t ++ " UTC") := by
  rcases md with ⟨vis, rise, transit, alt, az⟩
  refine ⟨?_, ?_, ?_, ?_, ?_⟩
  · simp only [get_visibility_status]
    split_ifs <;> first | decide | exact append_right_ne_empty _ _ (by decide)
  · rintro hv r hr hne
    subst hv hr
    simp [get_visibility_status, truthy, hne]
  · rintro hv hr
    subst hv hr
    simp [get_visibility_status, truthy]
  · rintro hv ht
    subst hv ht
    simp [get_visibility_status, truthy]
  · rintro hv t ht hne
    subst hv ht
    simp [get_visibility_status, truthy, hne]

/-- C5 witness: the four branch shapes at concrete readings. -/
theorem C5_visibility_status_total_witness :
    get_visibility_status ⟨false, some "06:30", none, "15.5", "120.3"⟩ =
      "Below horizon • Rises at " ++ "06:30" ++ " UTC" ∧
    get_visibility_status ⟨false, none, some "22:10", "15.5", "120.3"⟩ =
      "Below horizon" ∧
    get_visibility_status ⟨true, none, none, "15.5", "120.3"⟩ =
      "Visible • Alt: " ++ "15.5" ++ "° • Az: " ++ "120.3" ++ "°" ∧
    get_visibility_status ⟨true, none, some "22:10", "15.5", "120.3"⟩ =
      "Visible • Alt: " ++ "15.5" ++ "° • Az: " ++ "120.3" ++ "°" ++
        " • Culminates at " ++ "22:10" ++ " UTC" :=
  ⟨(C5_visibility_status_total ⟨false, some "06:30", none, "15.5", "120.3"⟩).2.1
      rfl "06:30" rfl (by decide),
   (C5_visibility_status_total ⟨false, none, some "22:10", "15.5", "120.3"⟩).2.2.1
      rfl rfl,
   (C5_visibility_status_total ⟨true, none, none, "15.5", "120.3"⟩).2.2.2.1
      rfl rfl,
   (C5_visibility_status_total ⟨true, none, some "22:10", "15.5", "120.3"⟩).2.2.2.2
      rfl "22:10" rfl (by decide)⟩

/-- C1: for every days-since-new-moon value `d` with `0 ≤ d < 29.53`,
`determine_phase` follows the ordered boundary table with
closed-below/open-above semantics: `d < 1` New Moon (asset 5), `1 ≤ d < 6`
Waxing Crescent (asset 6), `6 ≤ d < 9` First Quarter (asset 7),
`9 ≤ d < 13` Waxing Gibbous (asset 8), `13 ≤ d < 16` Full Moon (asset 1),
`16 ≤ d < 20` Waning Gibbous (asset 2), `20 ≤ d < 23` Last Quarter
(asset 3), `23 ≤ d < 29.53` Waning Crescent (asset 4). -/
theorem C1_phase_boundary_table (d : ℚ) (_h0 : 0 ≤ d) (_h1 : d < 2953/100) :
    (d < 1 →
      determine_phase d = ("New Moon", .NEW_MOON, "Moon_Phase_5_Alt.png")) ∧
    (1 ≤ d → d < 6 →
      determine_phase d = ("Waxing Crescent", .WAXING_CRESCENT, "Moon_Phase_6_Alt.png")) ∧
    (6 ≤ d → d < 9 →
      determine_phase d = ("First Quarter", .FIRST_QUARTER, "Moon_Phase_7_Alt.png")) ∧
    (9 ≤ d → d < 13 →
      determine_phase d = ("Waxing Gibbous", .WAXING_GIBBOUS, "Moon_Phase_8_Alt.png")) ∧
    (13 ≤ d → d < 16 →
      determine_phase d = ("Full Moon", .FULL_MOON, "Moon_Phase_1_Alt.png")) ∧
    (16 ≤ d → d < 20 →
      determine_phase d = ("Waning Gibbous", .WANING_GIBBOUS, "Moon_Phase_2_Alt.png")) ∧
    (20 ≤ d → d < 23 →
      determine_phase d = ("Last Quarter", .LAST_QUARTER, "Moon_Phase_3_Alt.png")) ∧
    (23 ≤ d →
      determine_phase d = ("Waning Crescent", .WANING_CRESCENT, "Moon_Phase_4_Alt.png")) := by
  refine ⟨?_, ?_, ?_, ?_, ?_, ?_, ?_, ?_⟩ <;> intros <;>
    simp only [determine_phase, phase_mapping, determine_phase_loop] <;>
    split_ifs <;> first | rfl | (exfalso; linarith)

/-- C1 witness: the three scenario inputs `0.5`, `1.0` and `15.9` evaluate
per the table. -/
theorem C1_phase_boundary_table_witness :
    determine_phase (1/2) = ("New Moon", .NEW_MOON, "Moon_Phase_5_Alt.png") ∧
    determine_phase 1 = ("Waxing Crescent", .WAXING_CRESCENT, "Moon_Phase_6_Alt.png") ∧
    determine_phase (159/10) = ("Full Moon", .FULL_MOON, "Moon_Phase_1_Alt.png") :=
  ⟨(C1_phase_boundary_table (1/2) (by norm_num) (by norm_num)).1 (by norm_num),
   (C1_phase_boundary_table 1 (by norm_num) (by norm_num)).2.1 (by norm_num) (by norm_num),
   (C1_phase_boundary_table (159/10) (by norm_num) (by norm_num)).2.2.2.2.1
     (by norm_num) (by norm_num)⟩

/-- C2 counterexample: at the out-of-range input `-1` the source classifier
does not fail fast — it returns the New Moon phase — although the spec
contract (`classify_spec`) rejects that input with `InvalidArgument`. -/
theorem C2_counterexample :
    determine_phase (-1) = ("New Moon", .NEW_MOON, "Moon_Phase_5_Alt.png") ∧
    classify_spec (-1) = .error "InvalidArgument" := by
  constructor
  · norm_num [determine_phase, phase_mapping, determine_phase_loop, MoonPhase.value]
  · norm_num [classify_spec]

/-- C2 amended: the classifier never errors: out-of-range input is not
rejected but clamped into the edge buckets (negative input returns New Moon
with asset 5, input `≥ 29.53` returns Waning Crescent with asset 4), and on
the valid domain `0 ≤ d < 29.53` it is total, returning a phase. -/
theorem C2_no_fail_fast_clamps (d : ℚ) :
    (d < 0 →
      determine_phase d = ("New Moon", .NEW_MOON, "Moon_Phase_5_Alt.png")) ∧
    (2953/100 ≤ d →
      determine_phase d = ("Waning Crescent", .WANING_CRESCENT, "Moon_Phase_4_Alt.png")) ∧
    (0 ≤ d → d < 2953/100 →
      ∃ ph img, determine_phase d = (MoonPhase.value ph, ph, img)) := by
  refine ⟨?_, ?_, ?_⟩ <;> intros <;>
    simp only [determine_phase, phase_mapping, determine_phase_loop] <;>
    split_ifs <;> first | rfl | (exfalso; linarith) | exact ⟨_, _, rfl⟩

/-- C2 witness: concrete out-of-range inputs `-1` and `30`, and the valid
input `3`. -/
theorem C2_no_fail_fast_clamps_witness :
    determine_phase (-1) = ("New Moon", .NEW_MOON, "Moon_Phase_5_Alt.png") ∧
    determine_phase 30 = ("Waning Crescent", .WANING_CRESCENT, "Moon_Phase_4_Alt.png") ∧
    ∃ ph img, determine_phase 3 = (MoonPhase.value ph, ph, img) :=
  ⟨(C2_no_fail_fast_clamps (-1)).1 (by norm_num),
   (C2_no_fail_fast_clamps 30).2.1 (by norm_num),
   (C2_no_fail_fast_clamps 3).2.2 (by norm_num) (by norm_num)⟩

/-- C9: the classifier as implemented is total — it always returns one of
the eight phases with its asset — and never reaches an error branch: every
negative input returns New Moon with `Moon_Phase_5_Alt.png`, and every
input `≥ 23` (at or beyond the synodic month included) returns Waning
Crescent with `Moon_Phase_4_Alt.png`. -/
theorem C9_classifier_total_on_all_inputs (d : ℚ) :
    (∃ ph img, determine_phase d = (MoonPhase.value ph, ph, img)) ∧
    (d < 0 →
      determine_phase d = ("New Moon", .NEW_MOON, "Moon_Phase_5_Alt.png")) ∧
    (23 ≤ d →
      determine_phase d = ("Waning Crescent", .WANING_CRESCENT, "Moon_Phase_4_Alt.png")) := by
  refine ⟨?_, ?_, ?_⟩ <;> intros <;>
    simp only [determine_phase, phase_mapping, determine_phase_loop] <;>
    split_ifs <;> first | rfl | (exfalso; linarith) | exact ⟨_, _, rfl⟩

/-- C9 witness: concrete inputs `-2`, `25` and `40`. -/
theorem C9_classifier_total_on_all_inputs_witness :
    determine_phase (-2) = ("New Moon", .NEW_MOON, "Moon_Phase_5_Alt.png") ∧
    determine_phase 25 = ("Waning Crescent", .WANING_CRESCENT, "Moon_Phase_4_Alt.png") ∧
    determine_phase 40 = ("Waning Crescent", .WANING_CRESCENT, "Moon_Phase_4_Alt.png") :=
  ⟨(C9_classifier_total_on_all_inputs (-2)).2.1 (by norm_num),
   (C9_classifier_total_on_all_inputs 25).2.2 (by norm_num),
   (C9_classifier_total_on_all_inputs 40).2.2 (by norm_num)⟩

end MoonBot
